import Mathlib

/-!
Shallow embedding of the `/api/video/analyze` handler of the creator-copilot
server (source: the Express route registered with `app.post("/api/video/analyze", ...)`).
External tools (ffmpeg/ffprobe, Tesseract OCR, the OpenAI chat and
transcription services) are modelled as inputs: the handler is a pure
function of an environment that records each external call's response.
All JS numbers that carry times, sizes or ratios are modelled as `ℚ`;
`Math.round` is modelled exactly (round half toward positive infinity).
-/

namespace CreatorCopilot

/-- Model of JavaScript `Math.round`: half-values round toward positive
infinity, so `Math.round x = ⌊x + 1/2⌋`. -/
def jsRound (x : ℚ) : ℤ := ⌊x + 1/2⌋

/-- Model of JavaScript `Number(x.toFixed(2))` for nonnegative `x`: round to
two decimal places, half up. -/
def toFixed2 (x : ℚ) : ℚ := (jsRound (x * 100) : ℚ) / 100

/-- Model of `String.prototype.trim`: strip leading and trailing whitespace
(computed structurally over the character list). -/
def jsTrim (s : String) : String :=
  String.mk (((s.data.dropWhile Char.isWhitespace).reverse.dropWhile Char.isWhitespace).reverse)

/-- Collapse every maximal run of whitespace characters to a single space:
the effect of `text.replace(/\s+/g, ' ')` on a character list. -/
def collapseWs : List Char → List Char
  | [] => []
  | [c] => [if c.isWhitespace then ' ' else c]
  | c :: d :: rest =>
    if c.isWhitespace && d.isWhitespace then collapseWs (d :: rest)
    else (if c.isWhitespace then ' ' else c) :: collapseWs (d :: rest)

/-- Model of `text.replace(/\s+/g, ' ')`. -/
def normWs (s : String) : String := String.mk (collapseWs s.data)

/-- Model of `text.slice(0, 80)`: keep the first 80 characters. -/
def jsSlice80 (s : String) : String := String.mk (s.data.take 80)

/-- Model of `str.trim().split(/\s+/).filter(Boolean).length`: the number of
maximal nonempty runs of non-whitespace characters. -/
def wordCount (s : String) : ℕ :=
  ((s.split (fun c => c.isWhitespace)).filter (fun w => w ≠ "")).length

/-- A silence interval parsed from the `silencedetect` stderr stream. The
source stores `{start, end}`; `end` is a Lean keyword so the field is named
`stop`. An unterminated interval has `stop = start` (the parser pushes
`{ start: t, end: t }` and only a later `silence_end` line updates `end`). -/
structure SilenceInterval where
  start : ℚ
  stop : ℚ
deriving DecidableEq, Repr

/-- Sum of silence durations, each clamped to be nonnegative: the reduction
`silences.reduce((acc, s) => acc + Math.max(0, s.end - s.start), 0)`. -/
def silenceDurSum (ss : List SilenceInterval) : ℚ :=
  (ss.map (fun s => max 0 (s.stop - s.start))).sum

/-- The reported silence ratio:
`silences.reduce(...) / Math.max(1, durationSec)`. -/
def silenceRatioOf (ss : List SilenceInterval) (durationSec : ℤ) : ℚ :=
  silenceDurSum ss / ((max 1 durationSec : ℤ) : ℚ)

/-- The reported average inter-cut interval:
`cuts > 1 ? Math.round((durationSec / cuts) * 10) / 10 : durationSec`. -/
def avgCutSecOf (durationSec : ℤ) (cuts : ℕ) : ℚ :=
  if 1 < cuts then (jsRound ((durationSec : ℚ) / (cuts : ℚ) * 10) : ℚ) / 10
  else (durationSec : ℚ)

/-- Rounding to one decimal place, half up, written from the spec sentence
"avgCutSec equals D/C rounded to 1 decimal place" (to be compared with the
formula the code uses). -/
def roundTo1dp (x : ℚ) : ℚ := (⌊10 * x + 1/2⌋ : ℚ) / 10

/-- A transcript segment as normalized by the handler:
`{ start: Number(s.start||0), end: Number(s.end||0), text: String(s.text||'') }`. -/
structure TranscriptSegment where
  start : ℚ
  stop : ℚ
  text : String
deriving DecidableEq, Repr

/-- Speech seconds: `0` unless segments exist and are nonempty, else
`segments.reduce((acc, s) => acc + Math.max(0, s.end - s.start), 0)`. -/
def speechSecondsOf : Option (List TranscriptSegment) → ℚ
  | some segs => if segs.length ≠ 0 then (segs.map (fun s => max 0 (s.stop - s.start))).sum else 0
  | none => 0

/-- First-two-seconds spoken text: `''` unless segments exist and are
nonempty, else `segments.filter(s => s.start < 2).map(s => s.text).join(' ').trim()`. -/
def first2sTextOf : Option (List TranscriptSegment) → String
  | some segs =>
    if segs.length ≠ 0 then
      jsTrim (String.intercalate " " ((segs.filter (fun s => s.start < 2)).map (fun s => s.text)))
    else ""
  | none => ""

/-- Words-per-second:
`speechSeconds > 0 ? Number((wordsTotal / speechSeconds).toFixed(2)) : undefined`
where `wordsTotal = (transcript || '').trim().split(/\s+/).filter(Boolean).length`. -/
def wordsPerSecOf (segments : Option (List TranscriptSegment)) (transcript : Option String) :
    Option ℚ :=
  if 0 < speechSecondsOf segments then
    some (toFixed2 ((wordCount (jsTrim (transcript.getD "")) : ℚ) / speechSecondsOf segments))
  else none

/-- The OCR loop over the extracted frames, in frame order. Each entry is one
`Tesseract.recognize` outcome: `Except.ok t` a recognized text, `Except.error`
a thrown recognition. The surrounding `try \x7b ... \x7d catch \x7b\x7d` makes a throw
abort the whole loop with `hookText` left at `''`; a frame whose trimmed text
is nonempty stops the loop with
`hookText = text.replace(/\s+/g, ' ').slice(0, 80)`. -/
def hookTextLoop : List (Except Unit String) → String
  | [] => ""
  | .error _ :: _ => ""
  | .ok t :: rest =>
    if jsTrim t = "" then hookTextLoop rest
    else jsSlice80 (normWs (jsTrim t))

/-- Caption presence: `const captionsPresent = !!hookText`. -/
def captionsPresentOf (ocr : List (Except Unit String)) : Bool :=
  hookTextLoop ocr != ""

/-- Insertion-order deduplication: the effect of `Array.from(new Set(xs))`
(a JS `Set` keeps the first occurrence of each value). -/
def jsSetDedup : List ℚ → List ℚ
  | [] => []
  | x :: xs => x :: (jsSetDedup xs).filter (fun y => y ≠ x)

/-- Insert into a sorted list, keeping ascending order. -/
def insertAsc (x : ℚ) : List ℚ → List ℚ
  | [] => [x]
  | y :: ys => if x ≤ y then x :: y :: ys else y :: insertAsc x ys

/-- Ascending numeric sort: the effect of `.sort((a, b) => a - b)`. -/
def jsSortAsc : List ℚ → List ℚ
  | [] => []
  | x :: xs => insertAsc x (jsSortAsc xs)

/-- The inputs the cut-count computation consumes: the timestamp lists the two
`detectCuts` passes return (each pass resolves with `[]` when the ffmpeg run
errors or prints nothing), the parsed silence intervals, and the byte sizes of
the sampled `cut-sample-*.jpg` frames in sorted filename order. `frameSizes`
is `Except.error ()` when the `readdir` of the working directory throws (which
it always does in the deployed code, the directory having been removed three
statements earlier); the surrounding `try ... catch` then skips the whole
frame-diff computation. -/
structure CutDetectInput where
  strictTimes : List ℚ
  looseTimes : List ℚ
  silences : List SilenceInterval
  frameSizes : Except Unit (List ℕ)
deriving Repr

/-- The looser-threshold detection pass is started if and only if the strict
pass returned no timestamps: `if (cutTimestamps.length === 0)`. -/
def loosePassRuns (i : CutDetectInput) : Prop := i.strictTimes.length = 0

instance (i : CutDetectInput) : Decidable (loosePassRuns i) := by
  unfold loosePassRuns; infer_instance

/-- The timeline after the visual passes: the strict-pass timestamps, or when
the strict pass found none,
`Array.from(new Set([...cutTimestamps, ...loose])).sort((a, b) => a - b)`. -/
def timelineAfterVisual (i : CutDetectInput) : List ℚ :=
  if i.strictTimes.length = 0 then jsSortAsc (jsSetDedup (i.strictTimes ++ i.looseTimes))
  else i.strictTimes

/-- `let cuts = cutTimestamps.length` after the visual passes. -/
def cutsAfterVisual (i : CutDetectInput) : ℕ := (timelineAfterVisual i).length

/-- The silence-derived cut count
`Math.max(0, gaps - 1)` with `gaps = silences.filter(s => (s.end - s.start) >= 0.25).length`. -/
def silenceDerivedCount (ss : List SilenceInterval) : ℕ :=
  (max 0 (((ss.filter (fun s => (0.25 : ℚ) ≤ s.stop - s.start)).length : ℤ) - 1)).toNat

/-- The silence-derived fallback is entered if and only if
`cuts === 0 && silences.length > 1`. -/
def silenceFallbackRuns (i : CutDetectInput) : Prop :=
  cutsAfterVisual i = 0 ∧ 1 < i.silences.length

instance (i : CutDetectInput) : Decidable (silenceFallbackRuns i) := by
  unfold silenceFallbackRuns; infer_instance

/-- The cut count after the silence-derived fallback. -/
def cutsAfterSilence (i : CutDetectInput) : ℕ :=
  if cutsAfterVisual i = 0 ∧ 1 < i.silences.length then silenceDerivedCount i.silences
  else cutsAfterVisual i

/-- The frame-sampling fallback is entered if and only if `cuts === 0` after
the silence-derived fallback. -/
def frameDiffRuns (i : CutDetectInput) : Prop := cutsAfterSilence i = 0

instance (i : CutDetectInput) : Decidable (frameDiffRuns i) := by
  unfold frameDiffRuns; infer_instance

/-- Count of adjacent frame pairs whose relative byte-size delta reaches the
threshold: pairs with a zero size are skipped, otherwise a cut is counted when
`Math.abs(b - a) / Math.max(a, b) >= 0.15`. -/
def frameDiffCount : List ℕ → ℕ
  | a :: b :: rest =>
    (if a ≠ 0 ∧ b ≠ 0 ∧ (0.15 : ℚ) ≤ |(b : ℚ) - (a : ℚ)| / max (a : ℚ) (b : ℚ) then 1 else 0)
      + frameDiffCount (b :: rest)
  | _ => 0

/-- The inferred cut count of the frame-sampling fallback; `0` when the
`readdir` threw (the `catch` swallows everything). -/
def inferredCutsOf : Except Unit (List ℕ) → ℕ
  | .ok sizes => frameDiffCount sizes
  | .error _ => 0

/-- The final cut count: the frame-diff result replaces the count only when
the fallback ran and `inferredCuts > 0`. -/
def finalCuts (i : CutDetectInput) : ℕ :=
  if cutsAfterSilence i = 0 ∧ 0 < inferredCutsOf i.frameSizes then inferredCutsOf i.frameSizes
  else cutsAfterSilence i

/-- The final timeline: `cutTimestamps = []` exactly when the frame-diff
fallback replaced the count. -/
def finalTimeline (i : CutDetectInput) : List ℚ :=
  if cutsAfterSilence i = 0 ∧ 0 < inferredCutsOf i.frameSizes then []
  else timelineAfterVisual i

/-- `const first3Cuts = cutTimestamps.filter(t => t <= 3).length`. -/
def first3CutsOf (timeline : List ℚ) : ℕ := (timeline.filter (fun t => t ≤ (3 : ℚ))).length

/-- First voiced moment estimated from the silences:
`silences.find(s => s.start <= 0.05)` and then
`firstSilence && firstSilence.end ? firstSilence.end : 0` (a `0` end is falsy). -/
def firstSoundSecOf (ss : List SilenceInterval) : ℚ :=
  match ss.find? (fun s => s.start ≤ (0.05 : ℚ)) with
  | some s => if s.stop ≠ 0 then s.stop else 0
  | none => 0

/-- The `loudness` object of the report: `\x7b meanDb, maxDb \x7d`, each value
parsed from a `volumedetect` stderr line and `undefined` when no line matched. -/
structure Loudness where
  meanDb : Option ℚ
  maxDb : Option ℚ
deriving DecidableEq, Repr

/-- The `firstSecond` object of the report. `ymin`/`ymax` are assigned in the
stderr handler itself; `yavg` and `contrast` only in the `end` handler, so an
errored `signalstats` run leaves them unset even when values were parsed. -/
structure FirstSecondStats where
  yavg : Option ℤ
  ymin : Option ℤ
  ymax : Option ℤ
  contrast : Option ℤ
deriving DecidableEq, Repr

/-- Build the `firstSecond` object. `ended` records whether the ffmpeg run
reached its `end` event: only then are
`yavg = Math.round(values.reduce((a, b) => a + b, 0) / values.length)` (when any
`YAVG:` line was seen) and `contrast = ymax - ymin` (when both bounds were
seen; `toFixed(0)` of an integer difference is itself) filled in. -/
def firstSecondOf (ended : Bool) (vals : List ℚ) (ymin ymax : Option ℤ) : FirstSecondStats :=
  { yavg := if ended && !vals.isEmpty then some (jsRound (vals.sum / (vals.length : ℚ))) else none
    ymin := ymin
    ymax := ymax
    contrast :=
      if ended then
        match ymin, ymax with
        | some a, some b => some (b - a)
        | _, _ => none
      else none }

/-- The metric portion of the analyze report: every field of the
`res.json(\x7b ... \x7d)` object literal except `suggestions` and `critique`, in
source order. -/
structure MetricPart where
  durationSec : ℤ
  cuts : ℕ
  avgCutSec : ℚ
  cutTimeline : List ℚ
  first3Cuts : ℕ
  hookText : String
  first2sText : String
  captionsPresent : Bool
  silences : List SilenceInterval
  silenceRatio : ℚ
  loudness : Loudness
  firstSecond : FirstSecondStats
  wordsPerSec : Option ℚ
  transcript : Option String
deriving DecidableEq, Repr

/-- The full analyze report: the metric fields plus the suggestion strings
and the optional critique lines. -/
structure Report where
  metrics : MetricPart
  suggestions : List String
  critique : Option (List String)
deriving DecidableEq, Repr

/-- A transcription response: the raw `text` (the handler turns `''` into
`undefined` via `tr?.text || undefined`) and the segment array when the
response carried one. -/
structure TranscriptionResult where
  rawText : String
  segments : Option (List TranscriptSegment)
deriving DecidableEq, Repr

/-- Everything the suggestion prompt interpolates. The template literal
`promptSug` is a deterministic function of the parsed form fields, the
computed metrics (including the transcript, from which the keyword digest is
derived) and `firstSoundSec`; the chat-completion service is modelled as a
response function over this data. -/
structure PromptInput where
  niche : String
  tone : String
  goals : List String
  pillars : List String
  digest : MetricPart
  firstSoundSec : ℚ

/-- One analyze request's external world: the response of every external call
the handler makes, in source order. `probe` is the `ffprobe` promise
(`Except.error` models a rejection, which the `await` rethrows); `ocr` the
Tesseract outcomes per frame; `transcription := none` models a failed, thrown
or skipped Whisper call; `llm` the chat-completion service for the suggestion
prompt (`Except.error` models a throw or unparsable completion is modelled
separately — see `analyzeHandler`); `critiqueResp := none` models a thrown
critique call. -/
structure ToolEnv where
  filePresent : Bool
  fileHasPath : Bool
  probe : Except Unit (Option ℚ)
  strictTimes : List ℚ
  looseTimes : List ℚ
  silences : List SilenceInterval
  ocr : List (Except Unit String)
  frameSizes : Except Unit (List ℕ)
  openaiConfigured : Bool
  transcription : Option TranscriptionResult
  loudnessMeanDb : Option ℚ
  loudnessMaxDb : Option ℚ
  signalEnded : Bool
  yavgValues : List ℚ
  yminVal : Option ℤ
  ymaxVal : Option ℤ
  llm : PromptInput → Except Unit (List String)
  critiqueResp : Option (List String)

/-- The plain-text multipart form fields of the request body. -/
structure FormFields where
  niche : Option String
  tone : Option String
  goals : Option String
  pillars : Option String

/-- Model of `String((req.body?.f as string) || dflt)`: `undefined` and the
empty string are falsy, any other string passes through. -/
def parseField (v : Option String) (dflt : String) : String :=
  match v with
  | some s => if s = "" then dflt else s
  | none => dflt

/-- Model of `String((req.body?.f as string) || '').split(',').filter(Boolean)`. -/
def parseListField (v : Option String) : List String :=
  ((v.getD "").split (fun c => c = ',')).filter (fun s => s ≠ "")

/-- The metric fields computed by the handler for a given environment and the
probed duration (`durOpt = none` when the probe succeeded without a usable
`format.duration`, so `Number(... || 0) = 0`). Transcription is attempted only
when the OpenAI client is configured. -/
def metricsOf (t : ToolEnv) (durOpt : Option ℚ) : MetricPart :=
  let durationSec : ℤ := jsRound (durOpt.getD 0)
  let cutsIn : CutDetectInput :=
    { strictTimes := t.strictTimes, looseTimes := t.looseTimes
      silences := t.silences, frameSizes := t.frameSizes }
  let cuts := finalCuts cutsIn
  let timeline := finalTimeline cutsIn
  let hookText := hookTextLoop t.ocr
  let transcription := if t.openaiConfigured then t.transcription else none
  let transcript :=
    transcription.bind (fun tr => if tr.rawText = "" then none else some tr.rawText)
  let segments := transcription.bind (fun tr => tr.segments)
  { durationSec := durationSec
    cuts := cuts
    avgCutSec := avgCutSecOf durationSec cuts
    cutTimeline := timeline
    first3Cuts := first3CutsOf timeline
    hookText := hookText
    first2sText := first2sTextOf segments
    captionsPresent := captionsPresentOf t.ocr
    silences := t.silences
    silenceRatio := silenceRatioOf t.silences durationSec
    loudness := { meanDb := t.loudnessMeanDb, maxDb := t.loudnessMaxDb }
    firstSecond := firstSecondOf t.signalEnded t.yavgValues t.yminVal t.ymaxVal
    wordsPerSec := wordsPerSecOf segments transcript
    transcript := transcript }

/-- The suggestion prompt data
(lines `const promptSug = ...`, interpolating the parsed form fields and the
computed metrics). -/
def promptInputOf (t : ToolEnv) (f : FormFields) (durOpt : Option ℚ) : PromptInput :=
  { niche := parseField f.niche "General"
    tone := parseField f.tone "Relatable"
    goals := parseListField f.goals
    pillars := parseListField f.pillars
    digest := metricsOf t durOpt
    firstSoundSec := firstSoundSecOf t.silences }

/-- The handler's possible responses: `missingFile` the 400, `analysisFailed`
the catch-all 500, `llmUnavailable` the 503, `llmFailed` the 502, `ok` the
200 with the report body. -/
inductive Outcome where
  | missingFile
  | analysisFailed
  | llmUnavailable
  | llmFailed
  | ok (r : Report)
deriving DecidableEq, Repr

/-- What remains on disk when the handler returns: whether the ephemeral
working directory was created, whether it was removed, and whether the
original uploaded file was unlinked. -/
structure FsState where
  workDirCreated : Bool
  workDirRemoved : Bool
  uploadUnlinked : Bool
deriving DecidableEq, Repr

/-- The filesystem state after the in-line cleanup statements
`await rm(workDir, \x7b recursive: true, force: true \x7d)` and the guarded
`unlink(file.path)` have executed. -/
def cleanedFs (t : ToolEnv) : FsState :=
  { workDirCreated := true, workDirRemoved := true, uploadUnlinked := t.fileHasPath }

/-- The analyze handler. Control flow from the source: a missing file returns
400 before the working directory exists; a rejected `ffprobe` promise throws
into the outer `catch`, which returns 500 *without* any cleanup; otherwise the
pipeline computes all metrics, performs the in-line cleanup, returns 503 when
no OpenAI client is configured, 502 when the suggestion call throws, and
otherwise the report, with `suggestions = parsed.suggestions.slice(0, 5)
.map(...).filter(Boolean)` and the optional critique. -/
def analyzeHandler (t : ToolEnv) (f : FormFields) : Outcome × FsState :=
  if t.filePresent then
    match t.probe with
    | .error _ => (.analysisFailed, ⟨true, false, false⟩)
    | .ok durOpt =>
      if t.openaiConfigured then
        match t.llm (promptInputOf t f durOpt) with
        | .error _ => (.llmFailed, cleanedFs t)
        | .ok sugg =>
          (.ok { metrics := metricsOf t durOpt
                 suggestions := (sugg.take 5).filter (fun s => s ≠ "")
                 critique := t.critiqueResp },
           cleanedFs t)
      else (.llmUnavailable, cleanedFs t)
  else (.missingFile, ⟨false, false, false⟩)

/-- The report of a successful outcome. -/
def outcomeReport : Outcome → Option Report
  | .ok r => some r
  | _ => none

/-- The report the handler produces for an environment and form fields, when
it produces one. -/
def reportOf (t : ToolEnv) (f : FormFields) : Option Report :=
  outcomeReport (analyzeHandler t f).1

/-- The report keys that are never `undefined` in the object literal passed to
`res.json`, in literal order up to the first optional key. -/
def baseKeys : List String :=
  ["durationSec", "cuts", "avgCutSec", "cutTimeline", "first3Cuts", "hookText",
   "first2sText", "captionsPresent", "silences", "silenceRatio", "loudness", "firstSecond"]

/-- The keys of the serialized response body. `res.json` serializes with
`JSON.stringify`, which drops every property whose value is `undefined`, so
`wordsPerSec`, `transcript` and `critique` appear only when computed;
`suggestions` is initialized to `[]` and always present. -/
def serializedKeys (r : Report) : List String :=
  baseKeys
    ++ (if r.metrics.wordsPerSec.isSome then ["wordsPerSec"] else [])
    ++ (if r.metrics.transcript.isSome then ["transcript"] else [])
    ++ ["suggestions"]
    ++ (if r.critique.isSome then ["critique"] else [])

/-- A request with no form fields filled in. -/
def noFields : FormFields := { niche := none, tone := none, goals := none, pillars := none }

/-- A placeholder report, used only as the default of `Option.getD` when
naming the report of a run that is known to succeed. -/
def emptyReport : Report :=
  { metrics :=
      { durationSec := 0, cuts := 0, avgCutSec := 0, cutTimeline := [], first3Cuts := 0
        hookText := "", first2sText := "", captionsPresent := false, silences := []
        silenceRatio := 0, loudness := { meanDb := none, maxDb := none }
        firstSecond := { yavg := none, ymin := none, ymax := none, contrast := none }
        wordsPerSec := none, transcript := none }
    suggestions := [], critique := none }

/-- An upload whose `ffprobe` call rejects (a non-decodable container), with
every later-stage service healthy. -/
def envProbeErr : ToolEnv :=
  { filePresent := true, fileHasPath := true, probe := .error ()
    strictTimes := [], looseTimes := [], silences := [], ocr := []
    frameSizes := .ok [], openaiConfigured := true, transcription := none
    loudnessMeanDb := none, loudnessMaxDb := none, signalEnded := true
    yavgValues := [], yminVal := none, ymaxVal := none
    llm := fun _ => .ok ["tighten the first cut"], critiqueResp := none }

/-- A second upload whose `ffprobe` call rejects, this one stored through the
memory-buffer fallback (no multer disk path). -/
def envProbeErr2 : ToolEnv :=
  { filePresent := true, fileHasPath := false, probe := .error ()
    strictTimes := [1, 2], looseTimes := [], silences := [{ start := 0, stop := 1 }]
    ocr := [.ok "HOOK"], frameSizes := .ok [], openaiConfigured := true
    transcription := some { rawText := "hello world", segments := some [{ start := 0, stop := 1, text := "hello world" }] }
    loudnessMeanDb := some (-20), loudnessMaxDb := some (-5), signalEnded := true
    yavgValues := [100], yminVal := some 10, ymaxVal := some 200
    llm := fun _ => .ok ["tighten the first cut"], critiqueResp := none }

/-- A probe that succeeds but reports no usable `format.duration`. -/
def envDurMissing : ToolEnv :=
  { filePresent := true, fileHasPath := true, probe := .ok none
    strictTimes := [1], looseTimes := [], silences := [], ocr := []
    frameSizes := .ok [], openaiConfigured := true, transcription := none
    loudnessMeanDb := none, loudnessMaxDb := none, signalEnded := true
    yavgValues := [], yminVal := none, ymaxVal := none
    llm := fun _ => .ok ["add a pattern interrupt"], critiqueResp := none }

/-- The report of the `envDurMissing` run. -/
def reportDurMissing : Report := (reportOf envDurMissing noFields).getD emptyReport

/-- A successful run in which every optional measurement is absent: no
transcription, no loudness lines, no signalstats lines, no critique. -/
def envNoTr : ToolEnv :=
  { filePresent := true, fileHasPath := true, probe := .ok (some 10)
    strictTimes := [], looseTimes := [], silences := [], ocr := []
    frameSizes := .ok [], openaiConfigured := true, transcription := none
    loudnessMeanDb := none, loudnessMaxDb := none, signalEnded := false
    yavgValues := [], yminVal := none, ymaxVal := none
    llm := fun _ => .ok [], critiqueResp := none }

/-- The report of the `envNoTr` run. -/
def reportNoTr : Report := (reportOf envNoTr noFields).getD emptyReport

/-- A fully healthy run: strict-pass cuts, one silence, OCR text, a
transcription with segments, loudness and signalstats values, a critique. -/
def envW : ToolEnv :=
  { filePresent := true, fileHasPath := true, probe := .ok (some 24)
    strictTimes := [1/2, 2], looseTimes := [], silences := [{ start := 0, stop := 1/2 }]
    ocr := [.ok "  Hello   world  "], frameSizes := .ok []
    openaiConfigured := true
    transcription := some
      { rawText := "hi there folks"
        segments := some [{ start := 0, stop := 1, text := "hi there" },
                          { start := 1, stop := 3/2, text := "folks" }] }
    loudnessMeanDb := some (-20), loudnessMaxDb := some (-5), signalEnded := true
    yavgValues := [100, 120], yminVal := some 10, ymaxVal := some 200
    llm := fun _ => .ok ["cut the intro faster", ""], critiqueResp := some ["tighten hook"] }

/-- Form fields with every plain-text field set. -/
def ffA : FormFields :=
  { niche := some "Fitness", tone := some "Bold"
    goals := some "growth,reach", pillars := some "form,habits" }

/-- Form fields with every plain-text field empty or missing. -/
def ffB : FormFields :=
  { niche := none, tone := some "", goals := some "", pillars := none }

/-- The report of the `envW` run with form fields `ffA`. -/
def rWA : Report := (reportOf envW ffA).getD emptyReport

/-- The report of the `envW` run with form fields `ffB`. -/
def rWB : Report := (reportOf envW ffB).getD emptyReport

/-- Both visual passes empty and no silence intervals at all: the
configuration of end-to-end scenario B of the spec. -/
def iC1cex : CutDetectInput :=
  { strictTimes := [], looseTimes := [], silences := [], frameSizes := .ok [] }

/-- A strict pass that found cuts, alongside one short silence. -/
def iC1w : CutDetectInput :=
  { strictTimes := [1/2, 2], looseTimes := [], silences := [{ start := 0, stop := 1/10 }]
    frameSizes := .ok [] }

/-- A strict pass with three timestamps, two of them within 3 seconds. -/
def iC10w : CutDetectInput :=
  { strictTimes := [1/2, 2, 4], looseTimes := [], silences := [], frameSizes := .ok [] }

/-- Claim C5: for every duration D ≥ 0 and cut count C, the reported
avgCutSec is D/C rounded to one decimal place when C > 1, and exactly D when
C ≤ 1. The code's `Math.round((durationSec / cuts) * 10) / 10` agrees with
the spec-side `roundTo1dp`. -/
theorem avg_cut_sec_spec (D : ℤ) (C : ℕ) (_hD : 0 ≤ D) :
    (1 < C → avgCutSecOf D C = roundTo1dp ((D : ℚ) / (C : ℚ))) ∧
    (C ≤ 1 → avgCutSecOf D C = (D : ℚ)) := by
  constructor
  · intro h
    unfold avgCutSecOf roundTo1dp jsRound
    rw [if_pos h, mul_comm ((D : ℚ) / (C : ℚ)) 10]
  · intro h
    unfold avgCutSecOf
    rw [if_neg (by omega)]

/-- Witness for `avg_cut_sec_spec`: scenario A of the spec, a 24-second video
with 10 cuts, avgCutSec = 2.4. -/
theorem avg_cut_sec_spec_witness :
    (0 : ℤ) ≤ 24 ∧ avgCutSecOf 24 10 = roundTo1dp ((24 : ℚ) / (10 : ℚ)) ∧
      avgCutSecOf 24 10 = 12/5 := by
  refine ⟨by decide, (avg_cut_sec_spec 24 10 (by decide)).1 (by decide), ?_⟩
  unfold avgCutSecOf jsRound
  rw [if_pos (by norm_num : (1 : ℕ) < 10)]
  norm_num

/-- Claim C6, counterexample: a 2.49-second clip (`Math.round` makes
`durationSec = 2`) whose silence filter reported one interval from 0 to
2.45 s yields a silence ratio of 49/40 > 1. -/
theorem silence_ratio_above_one :
    jsRound (249/100 : ℚ) = 2 ∧
    silenceRatioOf [{ start := 0, stop := 49/20 }] 2 = 49/40 ∧
    ¬ silenceRatioOf [{ start := 0, stop := 49/20 }] 2 ≤ 1 := by
  have hval : silenceRatioOf [{ start := 0, stop := 49/20 }] 2 = 49/40 := by
    unfold silenceRatioOf silenceDurSum
    simp only [List.map_cons, List.map_nil, List.sum_cons, List.sum_nil, add_zero, sub_zero]
    rw [max_eq_right (by norm_num : (0 : ℚ) ≤ 49/20),
      max_eq_right (by norm_num : (1 : ℤ) ≤ 2)]
    norm_num
  refine ⟨?_, hval, by rw [hval]; norm_num⟩
  unfold jsRound
  norm_num

/-- Claim C6, amended: for every parsed silence list and every duration > 0,
the silence ratio is nonnegative, is 0 when no silence intervals were
detected, ignores unterminated intervals (whose end equals their start), and
is at most 1 whenever the summed clamped silence durations do not exceed
`max 1 durationSec` — but nothing clamps it to 1 beyond that. -/
theorem silence_ratio_bounds (ss : List SilenceInterval) (d : ℤ) (_hd : 0 < d) :
    0 ≤ silenceRatioOf ss d ∧
    (ss = [] → silenceRatioOf ss d = 0) ∧
    (∀ x : ℚ, ∀ rest : List SilenceInterval,
       silenceRatioOf ({ start := x, stop := x } :: rest) d = silenceRatioOf rest d) ∧
    (silenceDurSum ss ≤ ((max 1 d : ℤ) : ℚ) → silenceRatioOf ss d ≤ 1) := by
  have hden : (0 : ℚ) < ((max 1 d : ℤ) : ℚ) := by
    exact_mod_cast lt_of_lt_of_le Int.zero_lt_one (le_max_left 1 d)
  have hsum : ∀ l : List SilenceInterval, 0 ≤ silenceDurSum l := by
    intro l
    refine List.sum_nonneg ?_
    intro x hx
    simp only [List.mem_map] at hx
    obtain ⟨s, _, rfl⟩ := hx
    exact le_max_left 0 _
  refine ⟨div_nonneg (hsum ss) hden.le, ?_, ?_, ?_⟩
  · intro h
    simp [h, silenceRatioOf, silenceDurSum]
  · intro x rest
    unfold silenceRatioOf silenceDurSum
    simp
  · intro h
    exact (div_le_one hden).mpr h

/-- Witness for `silence_ratio_bounds`: one half-second silence in a
2-second clip. -/
theorem silence_ratio_bounds_witness :
    0 ≤ silenceRatioOf [{ start := 0, stop := 1/2 }] 2 ∧
    silenceRatioOf [{ start := 0, stop := 1/2 }] 2 ≤ 1 := by
  have hsum : silenceDurSum [{ start := 0, stop := 1/2 }] ≤ ((max 1 2 : ℤ) : ℚ) := by
    unfold silenceDurSum
    simp only [List.map_cons, List.map_nil, List.sum_cons, List.sum_nil, add_zero, sub_zero]
    rw [max_eq_right (by norm_num : (0 : ℚ) ≤ 1/2),
      max_eq_right (by norm_num : (1 : ℤ) ≤ 2)]
    norm_num
  exact ⟨(silence_ratio_bounds [{ start := 0, stop := 1/2 }] 2 (by decide)).1,
    (silence_ratio_bounds [{ start := 0, stop := 1/2 }] 2 (by decide)).2.2.2 hsum⟩

/-- Claim C8: when the summed clamped speech seconds are 0 the report carries
no wordsPerSec value at all (no division is attempted), and a value is
present exactly when the speech seconds are positive. -/
theorem words_per_sec_guard (segs : Option (List TranscriptSegment)) (tr : Option String) :
    (speechSecondsOf segs = 0 → wordsPerSecOf segs tr = none) ∧
    ((wordsPerSecOf segs tr).isSome = true ↔ 0 < speechSecondsOf segs) := by
  constructor
  · intro h
    simp [wordsPerSecOf, h]
  · unfold wordsPerSecOf
    split
    · rename_i h
      simp [h]
    · rename_i h
      simp [h]

/-- Witness for `words_per_sec_guard`: a single segment whose end precedes
its start is clamped to zero speech seconds, so wordsPerSec is absent even
though the transcript has words. -/
theorem words_per_sec_guard_witness :
    speechSecondsOf (some [{ start := 5, stop := 3, text := "hello" }]) = 0 ∧
    wordsPerSecOf (some [{ start := 5, stop := 3, text := "hello" }]) (some "hello") = none := by
  have hs : speechSecondsOf (some [{ start := 5, stop := 3, text := "hello" }]) = 0 := by
    simp only [speechSecondsOf]
    rw [if_pos (by simp)]
    simp only [List.map_cons, List.map_nil, List.sum_cons, List.sum_nil, add_zero]
    rw [max_eq_left (by norm_num : (3 : ℚ) - 5 ≤ 0)]
  exact ⟨hs,
    (words_per_sec_guard (some [{ start := 5, stop := 3, text := "hello" }]) (some "hello")).1 hs⟩

/-- Claim C7: the OCR loop is a pure function of the ordered frame texts
(determinism given identical frames and responses is the functional model
itself). When every candidate's trimmed text is empty the hook text is the
empty string and captionsPresent is false; when an earlier candidate is
nonempty after trimming, the result is that candidate's whitespace-normalized
80-character-truncated text, never a later one. -/
theorem hook_text_first_nonempty (texts pre post : List String) (t : String) :
    ((∀ u ∈ texts, jsTrim u = "") →
       hookTextLoop (texts.map Except.ok) = "" ∧
       captionsPresentOf (texts.map Except.ok) = false) ∧
    ((∀ u ∈ pre, jsTrim u = "") → jsTrim t ≠ "" →
       hookTextLoop ((pre ++ t :: post).map Except.ok) = jsSlice80 (normWs (jsTrim t))) := by
  constructor
  · intro hall
    have h : hookTextLoop (texts.map Except.ok) = "" := by
      induction texts with
      | nil => rfl
      | cons a as ih =>
        simp only [List.map_cons, hookTextLoop]
        rw [if_pos (hall a (by simp))]
        exact ih fun u hu => hall u (by simp [hu])
    refine ⟨h, ?_⟩
    unfold captionsPresentOf
    rw [h]
    rfl
  · intro hpre ht
    induction pre with
    | nil =>
      simp only [List.nil_append, List.map_cons, hookTextLoop]
      rw [if_neg ht]
    | cons a as ih =>
      simp only [List.cons_append, List.map_cons, hookTextLoop]
      rw [if_pos (hpre a (by simp))]
      exact ih fun u hu => hpre u (by simp [hu])

/-- Witness for `hook_text_first_nonempty`: two whitespace-only frames, then
a frame reading " Hi   there " followed by a later nonempty frame; the hook
text is the normalized earlier text "Hi there". -/
theorem hook_text_first_nonempty_witness :
    hookTextLoop (["", "  "].map Except.ok) = "" ∧
    hookTextLoop ((["", "  "] ++ " Hi   there " :: ["LATER"]).map Except.ok) = "Hi there" := by
  refine ⟨((hook_text_first_nonempty ["", "  "] [] [] "x").1 (by decide)).1, ?_⟩
  have h := (hook_text_first_nonempty [] ["", "  "] ["LATER"] " Hi   there ").2
    (by decide) (by decide)
  rw [h]
  rfl

/-- Claim C1, counterexample: when both visual passes return no timestamps
and no silence intervals were detected, the silence-derived fallback does not
run (the code requires `silences.length > 1`), although the claim says it
runs whenever the visual passes yield zero cuts. -/
theorem silence_fallback_skipped :
    cutsAfterVisual iC1cex = 0 ∧ ¬ silenceFallbackRuns iC1cex := by
  constructor
  · rfl
  · intro h
    exact absurd h.2 (by decide)

/-- Claim C1, amended: the looser pass runs iff the strict pass found no
timestamps; the silence-derived fallback runs iff the visual passes yielded
zero cuts AND more than one silence interval was parsed; the frame-diff
fallback runs iff the count after the silence stage is zero; no fallback
changes a non-zero count; and the extra `silences.length > 1` guard is
result-preserving, because with at most one interval the silence-derived
count would be zero anyway. -/
theorem fallback_chain (i : CutDetectInput) :
    (loosePassRuns i ↔ i.strictTimes.length = 0) ∧
    (silenceFallbackRuns i ↔ cutsAfterVisual i = 0 ∧ 1 < i.silences.length) ∧
    (frameDiffRuns i ↔ cutsAfterSilence i = 0) ∧
    (cutsAfterVisual i ≠ 0 →
       cutsAfterSilence i = cutsAfterVisual i ∧ finalCuts i = cutsAfterVisual i) ∧
    (i.silences.length ≤ 1 → silenceDerivedCount i.silences = 0) := by
  refine ⟨Iff.rfl, Iff.rfl, Iff.rfl, ?_, ?_⟩
  · intro hv
    have hs : cutsAfterSilence i = cutsAfterVisual i := by
      unfold cutsAfterSilence
      rw [if_neg]
      rintro ⟨h0, -⟩
      exact hv h0
    refine ⟨hs, ?_⟩
    unfold finalCuts
    rw [if_neg, hs]
    rintro ⟨h0, -⟩
    rw [hs] at h0
    exact hv h0
  · intro hle
    have hf := List.length_filter_le (fun s => (0.25 : ℚ) ≤ s.stop - s.start) i.silences
    unfold silenceDerivedCount
    omega

/-- Witness for `fallback_chain`: a strict pass with two cuts leaves both the
silence stage and the final count untouched, and the one parsed silence
interval would have derived zero cuts anyway. -/
theorem fallback_chain_witness :
    (cutsAfterSilence iC1w = cutsAfterVisual iC1w ∧ finalCuts iC1w = cutsAfterVisual iC1w) ∧
    silenceDerivedCount iC1w.silences = 0 :=
  ⟨(fallback_chain iC1w).2.2.2.1 (by decide),
   (fallback_chain iC1w).2.2.2.2 (by decide)⟩

/-- Claim C10: whenever the reported cut timeline is non-empty the reported
cut count equals its length (both fallbacks that change the count leave the
timeline empty), and first3Cuts never exceeds the cut count. -/
theorem timeline_count_invariant (i : CutDetectInput) :
    (finalTimeline i ≠ [] → finalCuts i = (finalTimeline i).length) ∧
    first3CutsOf (finalTimeline i) ≤ finalCuts i := by
  by_cases h : cutsAfterSilence i = 0 ∧ 0 < inferredCutsOf i.frameSizes
  · have hTL : finalTimeline i = [] := by
      unfold finalTimeline
      rw [if_pos h]
    constructor
    · intro hne
      exact absurd hTL hne
    · rw [hTL]
      exact Nat.zero_le _
  · have hTL : finalTimeline i = timelineAfterVisual i := by
      unfold finalTimeline
      rw [if_neg h]
    have hFC : finalCuts i = cutsAfterSilence i := by
      unfold finalCuts
      rw [if_neg h]
    constructor
    · intro hne
      rw [hTL] at hne
      have hv : cutsAfterVisual i ≠ 0 := by
        unfold cutsAfterVisual
        simpa [List.length_eq_zero] using hne
      rw [hFC, hTL]
      unfold cutsAfterSilence
      rw [if_neg]
      · rfl
      rintro ⟨h0, -⟩
      exact hv h0
    · rw [hFC, hTL]
      by_cases hs : cutsAfterVisual i = 0 ∧ 1 < i.silences.length
      · have : (timelineAfterVisual i).length = 0 := hs.1
        unfold first3CutsOf
        have hfl := List.length_filter_le (fun t => t ≤ (3 : ℚ)) (timelineAfterVisual i)
        omega
      · have hcs : cutsAfterSilence i = cutsAfterVisual i := by
          unfold cutsAfterSilence
          rw [if_neg hs]
        rw [hcs]
        exact List.length_filter_le _ _

/-- Witness for `timeline_count_invariant`: a three-cut strict pass, two cuts
within the first three seconds. -/
theorem timeline_count_invariant_witness :
    finalCuts iC10w = (finalTimeline iC10w).length ∧
    first3CutsOf (finalTimeline iC10w) ≤ finalCuts iC10w :=
  ⟨(timeline_count_invariant iC10w).1 (by decide),
   (timeline_count_invariant iC10w).2⟩

/-- Helper: every successful handler outcome carries exactly the metrics
computed by `metricsOf` from the tool environment and the probed duration —
the form fields reach only the suggestion prompt. -/
theorem analyze_ok_metrics (t : ToolEnv) (f : FormFields) (r : Report) (durOpt : Option ℚ)
    (hp : t.probe = .ok durOpt) (h : (analyzeHandler t f).1 = .ok r) :
    r.metrics = metricsOf t durOpt ∧ r.critique = t.critiqueResp := by
  cases hfp : t.filePresent <;> simp only [analyzeHandler, hfp, hp] at h
  · simp at h
  · cases ho : t.openaiConfigured <;> simp only [ho] at h
    · simp at h
    · cases hl : t.llm (promptInputOf t f durOpt) <;> simp only [hl] at h
      · simp at h
      · simp only [if_true] at h
        have := h.symm
        cases this
        exact ⟨rfl, rfl⟩

/-- Claim C2 (evaluation of the code at the failing input): an upload whose
`ffprobe` call rejects makes the handler throw into its catch and answer 500,
with the working directory created but never removed and the uploaded file
never unlinked — the in-line cleanup at the middle of the handler is
skipped by every exception raised before it, and the catch performs none. -/
theorem probe_exception_skips_cleanup :
    (analyzeHandler envProbeErr noFields).1 = .analysisFailed ∧
    (analyzeHandler envProbeErr noFields).2.workDirCreated = true ∧
    (analyzeHandler envProbeErr noFields).2.workDirRemoved = false ∧
    (analyzeHandler envProbeErr noFields).2.uploadUnlinked = false :=
  ⟨rfl, rfl, rfl, rfl⟩

/-- Claim C3, counterexample: a probe failure does abort the pipeline — the
rejected `ffprobe` promise throws into the outer catch, which returns the
generic 500 error and no report, instead of substituting duration 0 and
proceeding. -/
theorem probe_failure_aborts :
    (analyzeHandler envProbeErr2 noFields).1 = .analysisFailed ∧
    reportOf envProbeErr2 noFields = none :=
  ⟨rfl, rfl⟩

/-- Claim C3, amended: only a probe that succeeds while reporting no usable
duration makes downstream stages substitute 0 and proceed to a report
(assuming the suggestion service works); a probe invocation that itself fails
aborts the request with the generic analysis error. -/
theorem probe_duration_fallback :
    (∀ t f, t.filePresent = true → t.probe = .ok none → t.openaiConfigured = true →
       (∀ p, ∃ l, t.llm p = .ok l) →
       ∃ r, (analyzeHandler t f).1 = .ok r ∧ r.metrics.durationSec = 0) ∧
    (∀ t f, t.filePresent = true → t.probe = .error () →
       (analyzeHandler t f).1 = .analysisFailed) := by
  constructor
  · intro t f hf hp ho hllm
    obtain ⟨l, hl⟩ := hllm (promptInputOf t f none)
    refine ⟨{ metrics := metricsOf t none
              suggestions := (l.take 5).filter (fun s => s ≠ "")
              critique := t.critiqueResp }, ?_, ?_⟩
    · simp only [analyzeHandler, hf, hp, ho, hl, if_true]
    · show (metricsOf t none).durationSec = 0
      show jsRound ((none : Option ℚ).getD 0) = 0
      unfold jsRound
      norm_num
  · intro t f hf hp
    simp only [analyzeHandler, hf, hp, if_true]

/-- Witness for `probe_duration_fallback`: the `envDurMissing` run succeeds
with durationSec 0, and the `envProbeErr` run aborts. -/
theorem probe_duration_fallback_witness :
    reportDurMissing.metrics.durationSec = 0 := by
  obtain ⟨r, hr, hd⟩ :=
    probe_duration_fallback.1 envDurMissing noFields rfl rfl rfl
      (fun p => ⟨["add a pattern interrupt"], rfl⟩)
  have hrep : reportDurMissing = r := by
    unfold reportDurMissing reportOf
    rw [hr]
    rfl
  rw [hrep]
  exact hd

/-- Claim C4, counterexample: a successful run with no transcription (and no
critique) serializes to a body whose key list omits `wordsPerSec`,
`transcript` and `critique` entirely — `JSON.stringify` drops properties
whose value is `undefined` — rather than carrying them as null. -/
theorem absent_metrics_drop_keys :
    (reportOf envNoTr noFields).map serializedKeys = some (baseKeys ++ ["suggestions"]) ∧
    "wordsPerSec" ∉ baseKeys ++ ["suggestions"] ∧
    "transcript" ∉ baseKeys ++ ["suggestions"] ∧
    "critique" ∉ baseKeys ++ ["suggestions"] := by
  refine ⟨rfl, by decide, by decide, by decide⟩

/-- Claim C4, amended: report construction never raises (every combination of
absent optional measurements still reaches a 200 whenever the fatal
suggestion stage works), and the serialized body always carries the twelve
base keys and `suggestions`; but the optional `wordsPerSec`, `transcript` and
`critique` keys are omitted, not null, when their value is absent. -/
theorem report_shape (t : ToolEnv) (f : FormFields) (durOpt : Option ℚ)
    (hf : t.filePresent = true) (hp : t.probe = .ok durOpt) (ho : t.openaiConfigured = true)
    (hllm : ∀ p, ∃ l, t.llm p = .ok l) :
    (∃ r, (analyzeHandler t f).1 = .ok r) ∧
    (∀ r, (analyzeHandler t f).1 = .ok r →
       (∀ k ∈ baseKeys, k ∈ serializedKeys r) ∧
       "suggestions" ∈ serializedKeys r ∧
       ("wordsPerSec" ∈ serializedKeys r ↔ (metricsOf t durOpt).wordsPerSec.isSome = true) ∧
       ("transcript" ∈ serializedKeys r ↔ (metricsOf t durOpt).transcript.isSome = true) ∧
       ("critique" ∈ serializedKeys r ↔ t.critiqueResp.isSome = true)) := by
  constructor
  · obtain ⟨l, hl⟩ := hllm (promptInputOf t f durOpt)
    refine ⟨{ metrics := metricsOf t durOpt
              suggestions := (l.take 5).filter (fun s => s ≠ "")
              critique := t.critiqueResp }, ?_⟩
    simp only [analyzeHandler, hf, hp, ho, hl, if_true]
  · intro r h
    obtain ⟨hm, hc⟩ := analyze_ok_metrics t f r durOpt hp h
    rw [← hm, ← hc]
    have hsplit : ∀ k : String, k ∈ serializedKeys r ↔
        (k ∈ baseKeys ∨
          (r.metrics.wordsPerSec.isSome = true ∧ k = "wordsPerSec") ∨
          (r.metrics.transcript.isSome = true ∧ k = "transcript") ∨
          k = "suggestions" ∨
          (r.critique.isSome = true ∧ k = "critique")) := by
      intro k
      unfold serializedKeys
      cases hw : r.metrics.wordsPerSec.isSome <;>
        cases ht : r.metrics.transcript.isSome <;>
          cases hcr : r.critique.isSome <;>
            simp [List.mem_append]
    refine ⟨?_, ?_, ?_, ?_, ?_⟩
    · intro k hk
      exact (hsplit k).mpr (Or.inl hk)
    · exact (hsplit "suggestions").mpr (by tauto)
    · rw [hsplit "wordsPerSec"]
      constructor
      · rintro (hbase | ⟨hw, -⟩ | ⟨-, habs⟩ | habs | ⟨-, habs⟩)
        · exact absurd hbase (by decide)
        · exact hw
        all_goals exact absurd habs (by decide)
      · intro hw
        tauto
    · rw [hsplit "transcript"]
      constructor
      · rintro (hbase | ⟨-, habs⟩ | ⟨ht, -⟩ | habs | ⟨-, habs⟩)
        · exact absurd hbase (by decide)
        · exact absurd habs (by decide)
        · exact ht
        all_goals exact absurd habs (by decide)
      · intro ht
        tauto
    · rw [hsplit "critique"]
      constructor
      · rintro (hbase | ⟨-, habs⟩ | ⟨-, habs⟩ | habs | ⟨hcr, -⟩)
        · exact absurd hbase (by decide)
        all_goals first
          | exact absurd habs (by decide)
          | exact hcr
      · intro hcr
        tauto

/-- Witness for `report_shape`: the all-optional-absent run `envNoTr`. -/
theorem report_shape_witness :
    "suggestions" ∈ serializedKeys reportNoTr ∧
    ("wordsPerSec" ∈ serializedKeys reportNoTr ↔
      (metricsOf envNoTr (some 10)).wordsPerSec.isSome = true) :=
  ⟨((report_shape envNoTr noFields (some 10) rfl rfl rfl
      (fun _ => ⟨[], rfl⟩)).2 reportNoTr rfl).2.1,
   ((report_shape envNoTr noFields (some 10) rfl rfl rfl
      (fun _ => ⟨[], rfl⟩)).2 reportNoTr rfl).2.2.1⟩

/-- Claim C9: the plain-text form fields (niche, tone, goals, pillars) can
change the suggestion prompt and hence the suggestion strings, but two runs
over the same tool environment (same video bytes, same external-tool, OCR and
transcription responses) that both succeed always report identical metric
fields. -/
theorem form_fields_noninterference (t : ToolEnv) (f g : FormFields) (r r' : Report)
    (h1 : (analyzeHandler t f).1 = .ok r) (h2 : (analyzeHandler t g).1 = .ok r') :
    r.metrics = r'.metrics := by
  cases hp : t.probe with
  | error e =>
    cases hfp : t.filePresent <;> simp only [analyzeHandler, hfp, hp] at h1 <;> simp at h1
  | ok durOpt =>
    rw [(analyze_ok_metrics t f r durOpt hp h1).1, (analyze_ok_metrics t g r' durOpt hp h2).1]

/-- Witness for `form_fields_noninterference`: the healthy run `envW` under
fully-populated form fields and under empty ones. -/
theorem form_fields_noninterference_witness : rWA.metrics = rWB.metrics :=
  form_fields_noninterference envW ffA ffB rWA rWB rfl rfl

end CreatorCopilot
